import Mathlib

/-!
Shallow embedding of `src/main.py` of the `aoc-leaderboard` repository:
a CLI tool that loads three config values (team name, leaderboard id,
session cookie) from local files or interactive prompts, fetches a private
Advent of Code leaderboard as JSON over HTTP, and renders it as a ranked
table.

External libraries (`httpx`, `tabulate`, `datetime`) are modelled at their
call boundary: `tabulate` receives a list of rows and renders it opaquely,
so table values are kept structured; `datetime.fromtimestamp(..).strftime`
is embedded as an executable civil-calendar conversion parameterised by the
local-timezone offset; the HTTP client is modelled by the response the
single GET would produce.
-/

namespace Aoc

/-- Models Python `int(s)` for a string of decimal digits (the day keys of
`completion_day_level`, such as "1".."25"). -/
def strToNat (s : String) : Nat :=
  s.data.foldl (fun n c => n * 10 + (c.toNat - 48)) 0

/-- Models Python `str.strip()`: drop leading and trailing whitespace. Defined
over the character list so that it evaluates by reduction. -/
def pyStrip (s : String) : String :=
  String.mk (((s.data.dropWhile Char.isWhitespace).reverse.dropWhile
    Char.isWhitespace).reverse)

/-- The `key=int` comparison underlying `sorted(..., key=int)`
(src/main.py:25): compare day keys by numeric value. -/
def dayLe (a b : String) : Bool :=
  strToNat a ≤ strToNat b

/-- The `days = sorted(completion_day_level.keys(), key=int)` line of
`format_completion_days` (src/main.py:25): the mapping's keys, in insertion
order, stably sorted by their numeric value. -/
def sortedDays (cdl : List (String × List String)) : List String :=
  (cdl.map Prod.fst).mergeSort dayLe

/-- The value of `len(completion_day_level[day])` (src/main.py:29): the number
of completed levels recorded for `day`. The dictionary is embedded as an
association list with distinct keys; a day's level set is the list of its
level keys. -/
def numLevels (cdl : List (String × List String)) (day : String) : Nat :=
  ((cdl.lookup day).getD []).length

/-- The string `'*' * n` (src/main.py:30). -/
def starStr (n : Nat) : String :=
  String.mk (List.replicate n '*')

/-- The `day_data` rows built by the loop of `format_completion_days`
(src/main.py:28-31): one row `["Day <n>", "*..."]` per day, in sorted order. -/
def day_data (cdl : List (String × List String)) : List (String × String) :=
  (sortedDays cdl).map fun day => ("Day " ++ day, starStr (numLevels cdl day))

/-- Models `format_completion_days` (src/main.py:21-35). The empty mapping
returns the literal string "No days yet"; otherwise the `day_data` rows are
handed to the external `tabulate(..., tablefmt='simple')` call, kept here as
the structured row list. -/
def format_completion_days (cdl : List (String × List String)) :
    String ⊕ List (String × String) :=
  if cdl.isEmpty then Sum.inl "No days yet"
  else Sum.inr (day_data cdl)

/-- One member's record in the leaderboard JSON (§3 of the data model):
`completion_day_level` maps a day-number string to that day's set of
completed part-levels, kept as an association list of level keys. -/
structure MemberInfo where
  name : String
  stars : Int
  local_score : Int
  last_star_ts : Int
  completion_day_level : List (String × List String)
deriving DecidableEq

/-- Zero-pad a natural number to at least two digits, as `strftime` does for
`%m %d %H %M %S`. -/
def pad2 (n : Nat) : String :=
  if n < 10 then "0" ++ toString n else toString n

/-- Zero-pad a natural number to at least four digits, as `strftime` does for
`%Y`. -/
def pad4 (n : Nat) : String :=
  let s := toString n
  String.mk (List.replicate (4 - s.length) '0') ++ s

/-- Render a (proleptic Gregorian) year, negative years with a sign. -/
def padYear (y : Int) : String :=
  if y < 0 then "-" ++ pad4 (-y).toNat else pad4 y.toNat

/-- Civil date from a count of days since the Unix epoch (1970-01-01),
the standard exact conversion used by calendar libraries: returns
(year, month, day). -/
def civilFromDays (z : Int) : Int × Nat × Nat :=
  let z' := z + 719468
  let era := z'.fdiv 146097
  let doe := (z' - era * 146097).toNat
  let yoe := (doe - doe / 1460 + doe / 36524 - doe / 146096) / 365
  let doy := doe - (365 * yoe + yoe / 4 - yoe / 100)
  let mp := (5 * doy + 2) / 153
  let d := doy - (153 * mp + 2) / 5 + 1
  let m := if mp < 10 then mp + 3 else mp - 9
  let y : Int := era * 400 + (yoe : Int) + (if m ≤ 2 then 1 else 0)
  (y, m, d)

/-- Models `datetime.fromtimestamp(t).strftime("%Y-%m-%d %H:%M:%S")`
(src/main.py:55-60): the Unix timestamp `t` shifted by the local-timezone
offset `off` (seconds east of UTC), split into civil date and time of day. -/
def fromtimestamp_strftime (off t : Int) : String :=
  let lt := t + off
  let days := lt.fdiv 86400
  let sod := (lt.fmod 86400).toNat
  let ymd := civilFromDays days
  let h := sod / 3600
  let mi := sod % 3600 / 60
  let s := sod % 60
  padYear ymd.1 ++ "-" ++ pad2 ymd.2.1 ++ "-" ++ pad2 ymd.2.2 ++ " " ++
    pad2 h ++ ":" ++ pad2 mi ++ ":" ++ pad2 s

/-- One row of `table_data` (src/main.py:61-68). The rank cell holds the
placeholder `'-'` (here `none`) or a number; the completion cell holds the
value returned by `format_completion_days`. -/
structure Row where
  rank : Option Nat
  name : String
  completion : String ⊕ List (String × String)
  stars : Int
  local_score : Int
  last_star : String
deriving DecidableEq

/-- Build one member's row (src/main.py:53-68): rank placeholder, name,
day-completion sub-table, stars, local score, and the last-star column,
which is the literal "No stars earned yet" when `last_star_ts == 0` and the
formatted local timestamp otherwise. -/
def buildRow (off : Int) (mi : MemberInfo) : Row :=
  { rank := none
    name := mi.name
    completion := format_completion_days mi.completion_day_level
    stars := mi.stars
    local_score := mi.local_score
    last_star :=
      if mi.last_star_ts = 0 then "No stars earned yet"
      else fromtimestamp_strftime off mi.last_star_ts }

/-- The sort key `(x[4], x[3]) = (local_score, stars)` of src/main.py:71. -/
def rowKey (r : Row) : Int × Int :=
  (r.local_score, r.stars)

/-- Models `table_data.sort(key=lambda x: (x[4], x[3]), reverse=True)`
(src/main.py:71) as a boolean comparison: `keyGe a b` holds when `a`'s key is
lexicographically greater than or equal to `b`'s, so that a stable sort by it
is exactly Python's stable descending sort. -/
def keyGe (a b : Row) : Bool :=
  b.local_score < a.local_score ∨ (a.local_score = b.local_score ∧ b.stars ≤ a.stars)

/-- Strict lexicographic comparison of sort keys: `keyGt p q` says `p > q`. -/
def keyGt (p q : Int × Int) : Prop :=
  q.1 < p.1 ∨ (p.1 = q.1 ∧ q.2 < p.2)

/-- The guard `row[5] != "No stars earned yet"` of src/main.py:74: whether a
row is eligible for a rank number. -/
def starredB (r : Row) : Bool :=
  r.last_star ≠ "No stars earned yet"

/-- The rank-assignment loop (src/main.py:72-76): walk the sorted rows with a
counter starting at 1; a row whose last-star cell is not
"No stars earned yet" receives the counter value, which then increments;
other rows are left untouched. -/
def assignRanks (no : Nat) : List Row → List Row
  | [] => []
  | r :: rs =>
    if starredB r then
      { r with rank := some no } :: assignRanks (no + 1) rs
    else
      r :: assignRanks no rs

/-- The `table_data` list as first built by the loop over `members.items()`
(src/main.py:52-68): one row per member, in the mapping's insertion order; the
member-id key is bound but never used. -/
def table_data (off : Int) (members : List (String × MemberInfo)) : List Row :=
  members.map fun m => buildRow off m.2

/-- The `table_data` list right after the `sort` call of src/main.py:71:
stably sorted, descending by `(local_score, stars)`. -/
def sorted_table (off : Int) (members : List (String × MemberInfo)) : List Row :=
  (table_data off members).mergeSort keyGe

/-- The fully processed rows of `display_leaderboard`: built, stably sorted
descending by `(local_score, stars)`, then ranked (src/main.py:52-76). -/
def display_table (off : Int) (members : List (String × MemberInfo)) : List Row :=
  assignRanks 1 (sorted_table off members)

/-- The non-rank fields of a row: name, completion cell, stars, local score,
and last-star cell. Sorting and rank assignment may only reorder these. -/
def rowNR (r : Row) : String × (String ⊕ List (String × String)) × Int × Int × String :=
  (r.name, r.completion, r.stars, r.local_score, r.last_star)

/-- The parsed leaderboard JSON (src/main.py:40-41): the `event` string and
the `members` mapping, embedded as an association list in insertion order. -/
structure LeaderboardData where
  event : String
  members : List (String × MemberInfo)
deriving DecidableEq

/-- What `display_leaderboard` (src/main.py:38-81) prints: the banner title
line (the surrounding `=` lines have the same length) and the table handed to
the external `tabulate(..., tablefmt='fancy_grid')` call, kept structured as
its headers and rows. -/
structure DisplayOutput where
  banner : String
  headers : List String
  rows : List Row
deriving DecidableEq

/-- Models `display_leaderboard` (src/main.py:38-81). `today` stands for
`datetime.today().strftime("%d %B %Y")` and `off` for the local-timezone
offset, both environmental inputs. -/
def display_leaderboard (off : Int) (today : String) (data : LeaderboardData)
    (team_name : String) : DisplayOutput :=
  let padding := String.mk (List.replicate 4 ' ')
  let message := padding ++ "Advent of Code " ++ data.event ++ " - " ++
    team_name ++ " Leaderboard - " ++ today ++ padding
  { banner := message
    headers := ["#", "Name", "Completion Day Level", "Stars", "Local Score",
                "Last Star Earned"]
    rows := display_table off data.members }

/-- The response the single HTTP GET would produce: status code, reason
phrase, and (when consulted) the parsed JSON body. -/
structure HttpResponse where
  status : Nat
  reason : String
  body : LeaderboardData
deriving DecidableEq

/-- The payload of an `httpx.HTTPStatusError`: the response's status code and
reason phrase, as read by the handler at src/main.py:124-127. -/
structure HTTPStatusError where
  status : Nat
  reason : String
deriving DecidableEq

/-- Models `fetch_leaderboard` (src/main.py:10-18): `raise_for_status()`
raises an `HTTPStatusError` whenever the (redirect-followed) response status
is outside 2xx; otherwise the JSON body is returned. -/
def fetch_leaderboard (resp : HttpResponse) : Except HTTPStatusError LeaderboardData :=
  if 200 ≤ resp.status ∧ resp.status < 300 then Except.ok resp.body
  else Except.error ⟨resp.status, resp.reason⟩

/-- The environment one run of `main` observes: the contents of the three
config files (`none` = file does not exist), what the user would type at each
prompt, the HTTP response, and the date/timezone. -/
structure Env where
  team_file : Option String
  leaderboard_file : Option String
  cookie_file : Option String
  team_input : String
  leaderboard_input : String
  cookie_input : String
  response : HttpResponse
  today : String
  tzOff : Int
deriving DecidableEq

/-- The observable effects of one run of `main`: lines printed (each `print`
call's argument, in order), the value written to each config file if any, the
URL requested if the GET happened, the rendered leaderboard if it was
displayed, and the process exit status. -/
structure MainResult where
  output : List String
  team_file_written : Option String
  leaderboard_file_written : Option String
  cookie_file_written : Option String
  requested_url : Option String
  displayed : Option DisplayOutput
  exit_status : Nat
deriving DecidableEq

/-- Models `not file.exists() or file.read_text().strip() == ""`
(src/main.py:86,94,106). Python `str.strip()` is embedded as `pyStrip`. -/
def fileBlank (contents : Option String) : Bool :=
  match contents with
  | none => true
  | some s => pyStrip s = ""

/-- Models `input(...).strip().split("-")[0]` (src/main.py:96): everything
before the first `-` of the stripped input. -/
def splitHead (s : String) : String :=
  String.mk (s.data.takeWhile (fun c => c ≠ '-'))

/-- The `team_name` variable after the first config block (src/main.py:85-91). -/
def team_name_of (env : Env) : String :=
  if fileBlank env.team_file then pyStrip env.team_input else env.team_file.getD ""

/-- The `leaderboard_id` variable after the second config block
(src/main.py:93-99). -/
def leaderboard_id_of (env : Env) : String :=
  if fileBlank env.leaderboard_file then splitHead (pyStrip env.leaderboard_input)
  else env.leaderboard_file.getD ""

/-- The `session_cookie` variable after the third config block
(src/main.py:105-116). -/
def session_cookie_of (env : Env) : String :=
  if fileBlank env.cookie_file then pyStrip env.cookie_input
  else env.cookie_file.getD ""

/-- The request URL built at src/main.py:101. -/
def url_of (leaderboard_id : String) : String :=
  "https://adventofcode.com/2025/leaderboard/private/view/" ++ leaderboard_id ++ ".json"

/-- Models `main` (src/main.py:84-129) as a function from the observed
environment to the run's effects. The generic `except Exception` arm is not
reachable in this embedding because the environment always supplies a
well-formed response body. -/
def main (env : Env) : MainResult :=
  let team_name := team_name_of env
  let teamWarn : List String :=
    if fileBlank env.team_file then ["\nWarning: No team name file provided."] else []
  let teamWrite : Option String :=
    if fileBlank env.team_file then some team_name else none
  let leaderboard_id := leaderboard_id_of env
  let lbWarn : List String :=
    if fileBlank env.leaderboard_file then ["\nWarning: No leaderboard id provided"] else []
  let lbWrite : Option String :=
    if fileBlank env.leaderboard_file then some leaderboard_id else none
  let url := url_of leaderboard_id
  let session_cookie := session_cookie_of env
  let ckWarn : List String :=
    if fileBlank env.cookie_file then
      ["\nWarning: No session cookie provided. The request may fail if authentication is required.",
       "\tTo get your session cookie:",
       "\t1. Log into adventofcode.com",
       "\t2. Open browser developer tools (F12)",
       "\t3. Go to Application/Storage > Cookies",
       "\t4. Copy the value of the 'session' cookie\n"]
    else []
  let ckWrite : Option String :=
    if fileBlank env.cookie_file then some session_cookie else none
  let pre := teamWarn ++ lbWarn ++ ckWarn
  if pyStrip session_cookie = "" then
    { output := pre ++ ["\nWarning: No session cookie provided."]
      team_file_written := teamWrite
      leaderboard_file_written := lbWrite
      cookie_file_written := ckWrite
      requested_url := none
      displayed := none
      exit_status := 1 }
  else
    match fetch_leaderboard env.response with
    | Except.ok data =>
      { output := pre
        team_file_written := teamWrite
        leaderboard_file_written := lbWrite
        cookie_file_written := ckWrite
        requested_url := some url
        displayed := some (display_leaderboard env.tzOff env.today data team_name)
        exit_status := 0 }
    | Except.error e =>
      { output := pre ++ ["HTTP Error: " ++ toString e.status ++ " - " ++ e.reason] ++
          (if e.status = 401 ∨ e.status = 400 then
            ["Authentication required. Please provide a valid session cookie."]
          else [])
        team_file_written := teamWrite
        leaderboard_file_written := lbWrite
        cookie_file_written := ckWrite
        requested_url := some url
        displayed := none
        exit_status := 0 }

/-! ### Helper lemmas -/

/-- Seconds-of-day extracted with a floor modulus are always in range. -/
theorem sod_lt (t : Int) : (t.fmod 86400).toNat < 86400 := by
  have h1 : t.fmod 86400 < 86400 := Int.fmod_lt_of_pos t (by decide)
  have h2 : 0 ≤ t.fmod 86400 := Int.fmod_nonneg' t (by decide)
  omega

/-- A formatted timestamp always contains a colon, so it can never collide
with the literal placeholder "No stars earned yet". -/
theorem fmt_ne_noStars (off t : Int) :
    fromtimestamp_strftime off t ≠ "No stars earned yet" := by
  intro h
  have hc : ':' ∈ (fromtimestamp_strftime off t).data := by
    unfold fromtimestamp_strftime
    have hcol : ':' ∈ (":" : String).data := by decide
    simp only [String.data_append, List.mem_append]
    tauto
  rw [h] at hc
  exact (by decide : ':' ∉ ("No stars earned yet" : String).data) hc

/-! ### Claim theorems -/

/-- C5: `format_completion_days` applied to an empty `completion_day_level`
mapping returns exactly the string "No days yet". -/
theorem format_completion_days_empty :
    format_completion_days [] = Sum.inl "No days yet" := rfl

/-- C4: in a member's row the last-star column is the literal
"No stars earned yet" exactly on the `last_star_ts = 0` branch, and for a
positive timestamp it is the timestamp rendered through the embedded
`datetime.fromtimestamp(..).strftime("%Y-%m-%d %H:%M:%S")` at local offset
`off`: a date part followed by zero-padded `HH:MM:SS` with in-range fields. -/
theorem last_star_column_spec (off : Int) (mi : MemberInfo) :
    ((buildRow off mi).last_star =
      if mi.last_star_ts = 0 then "No stars earned yet"
      else fromtimestamp_strftime off mi.last_star_ts) ∧
    (0 < mi.last_star_ts →
      ∃ y mo d h m s,
        fromtimestamp_strftime off mi.last_star_ts =
          (padYear y ++ "-" ++ pad2 mo ++ "-" ++ pad2 d) ++ " " ++
            pad2 h ++ ":" ++ pad2 m ++ ":" ++ pad2 s ∧
        h < 24 ∧ m < 60 ∧ s < 60) := by
  refine ⟨rfl, fun _ => ?_⟩
  refine ⟨(civilFromDays ((mi.last_star_ts + off).fdiv 86400)).1,
    (civilFromDays ((mi.last_star_ts + off).fdiv 86400)).2.1,
    (civilFromDays ((mi.last_star_ts + off).fdiv 86400)).2.2,
    ((mi.last_star_ts + off).fmod 86400).toNat / 3600,
    ((mi.last_star_ts + off).fmod 86400).toNat % 3600 / 60,
    ((mi.last_star_ts + off).fmod 86400).toNat % 60,
    rfl, ?_, ?_, ?_⟩
  · have := sod_lt (mi.last_star_ts + off)
    omega
  · omega
  · omega

/-- Witness for C4 at the timestamp 1733000000 (IST offset +5:30). -/
theorem last_star_column_spec_witness :
    (0 : Int) < 1733000000 ∧
    (((buildRow 19800 ⟨"Alice", 5, 120, 1733000000, []⟩).last_star =
      if (1733000000 : Int) = 0 then "No stars earned yet"
      else fromtimestamp_strftime 19800 1733000000) ∧
    ((0 : Int) < 1733000000 →
      ∃ y mo d h m s,
        fromtimestamp_strftime 19800 1733000000 =
          (padYear y ++ "-" ++ pad2 mo ++ "-" ++ pad2 d) ++ " " ++
            pad2 h ++ ":" ++ pad2 m ++ ":" ++ pad2 s ∧
        h < 24 ∧ m < 60 ∧ s < 60)) :=
  ⟨by decide, last_star_column_spec 19800 ⟨"Alice", 5, 120, 1733000000, []⟩⟩

/-- C10: the rendered leaderboard does not depend on the member-id keys of
the members mapping — only on the `MemberInfo` values in insertion order. -/
theorem display_independent_of_member_ids (off : Int) (today event team : String)
    (m1 m2 : List (String × MemberInfo))
    (h : m1.map Prod.snd = m2.map Prod.snd) :
    display_leaderboard off today ⟨event, m1⟩ team =
      display_leaderboard off today ⟨event, m2⟩ team := by
  have key : ∀ ms : List (String × MemberInfo),
      table_data off ms = (ms.map Prod.snd).map (buildRow off) := by
    intro ms
    unfold table_data
    rw [List.map_map]
    rfl
  unfold display_leaderboard display_table sorted_table
  rw [key, key, h]

/-- Witness for C10: two mappings with different member-id keys but the same
member values render identically. -/
theorem display_independent_of_member_ids_witness :
    ([("123", ⟨"Alice", 5, 120, 1733000000, []⟩), ("456", ⟨"Bob", 0, 0, 0, []⟩)].map
        (Prod.snd (α := String) (β := MemberInfo)) =
      [("999", ⟨"Alice", 5, 120, 1733000000, []⟩), ("7", ⟨"Bob", 0, 0, 0, []⟩)].map Prod.snd) ∧
    display_leaderboard 0 "07 December 2025"
        ⟨"2025", [("123", ⟨"Alice", 5, 120, 1733000000, []⟩), ("456", ⟨"Bob", 0, 0, 0, []⟩)]⟩
        "Team" =
      display_leaderboard 0 "07 December 2025"
        ⟨"2025", [("999", ⟨"Alice", 5, 120, 1733000000, []⟩), ("7", ⟨"Bob", 0, 0, 0, []⟩)]⟩
        "Team" :=
  ⟨by decide,
   display_independent_of_member_ids 0 "07 December 2025" "2025" "Team" _ _ (by decide)⟩

/-- C8: when the leaderboard id comes from the interactive prompt, everything
from the first `-` on is dropped before the id is written to the file and
(if the run reaches the network call) used in the request URL. -/
theorem leaderboard_id_prompt_strips_suffix (env : Env)
    (h : fileBlank env.leaderboard_file = true) :
    (main env).leaderboard_file_written = some (splitHead (pyStrip env.leaderboard_input)) ∧
    ((main env).requested_url = none ∨
      (main env).requested_url = some (url_of (splitHead (pyStrip env.leaderboard_input)))) := by
  have hid : leaderboard_id_of env = splitHead (pyStrip env.leaderboard_input) := by
    simp [leaderboard_id_of, h]
  by_cases hc : pyStrip (session_cookie_of env) = ""
  · constructor
    · simp [main, hc, h, hid]
    · left
      simp [main, hc]
  · cases hf : fetch_leaderboard env.response with
    | ok data =>
      constructor
      · simp [main, hc, hf, h, hid]
      · right
        simp [main, hc, hf, hid]
    | error e =>
      constructor
      · simp [main, hc, hf, h, hid]
      · right
        simp [main, hc, hf, hid]

/-- Witness for C8: typing "123456-private" stores and uses "123456". -/
theorem leaderboard_id_prompt_strips_suffix_witness :
    fileBlank (Env.leaderboard_file
      ⟨some "T", none, some "c", "", "123456-private", "", ⟨200, "OK", ⟨"2025", []⟩⟩,
        "07 December 2025", 0⟩) = true ∧
    ((main ⟨some "T", none, some "c", "", "123456-private", "", ⟨200, "OK", ⟨"2025", []⟩⟩,
        "07 December 2025", 0⟩).leaderboard_file_written =
      some (splitHead (pyStrip "123456-private")) ∧
    ((main ⟨some "T", none, some "c", "", "123456-private", "", ⟨200, "OK", ⟨"2025", []⟩⟩,
        "07 December 2025", 0⟩).requested_url = none ∨
      (main ⟨some "T", none, some "c", "", "123456-private", "", ⟨200, "OK", ⟨"2025", []⟩⟩,
        "07 December 2025", 0⟩).requested_url =
        some (url_of (splitHead (pyStrip "123456-private"))))) :=
  ⟨by decide,
   leaderboard_id_prompt_strips_suffix
     ⟨some "T", none, some "c", "", "123456-private", "", ⟨200, "OK", ⟨"2025", []⟩⟩,
       "07 December 2025", 0⟩ (by decide)⟩

/-- C6: when the cookie file is missing or blank and the prompted value is
blank too, `main` prints the warning, persists the (empty) entered value, asks
for nothing over the network, and exits with status 1. -/
theorem blank_cookie_exits (env : Env) (hfile : fileBlank env.cookie_file = true)
    (hblank : pyStrip env.cookie_input = "") :
    "\nWarning: No session cookie provided." ∈ (main env).output ∧
    (main env).cookie_file_written = some (pyStrip env.cookie_input) ∧
    (main env).requested_url = none ∧
    (main env).exit_status = 1 := by
  have h0 : pyStrip "" = "" := by decide
  have hc : pyStrip (session_cookie_of env) = "" := by
    simp [session_cookie_of, hfile, hblank, h0]
  refine ⟨?_, ?_, ?_, ?_⟩
  · simp [main, hc]
  · simp [main, hc, h0, session_cookie_of, hfile, hblank]
  · simp [main, hc]
  · simp [main, hc]

/-- Witness for C6 on a first run with no files and an empty cookie entry. -/
theorem blank_cookie_exits_witness :
    fileBlank (Env.cookie_file
      ⟨none, none, none, "T", "1", "", ⟨200, "OK", ⟨"2025", []⟩⟩, "07 December 2025", 0⟩) =
      true ∧
    pyStrip "" = "" ∧
    ("\nWarning: No session cookie provided." ∈
      (main ⟨none, none, none, "T", "1", "", ⟨200, "OK", ⟨"2025", []⟩⟩,
        "07 December 2025", 0⟩).output ∧
    (main ⟨none, none, none, "T", "1", "", ⟨200, "OK", ⟨"2025", []⟩⟩,
        "07 December 2025", 0⟩).cookie_file_written = some (pyStrip "") ∧
    (main ⟨none, none, none, "T", "1", "", ⟨200, "OK", ⟨"2025", []⟩⟩,
        "07 December 2025", 0⟩).requested_url = none ∧
    (main ⟨none, none, none, "T", "1", "", ⟨200, "OK", ⟨"2025", []⟩⟩,
        "07 December 2025", 0⟩).exit_status = 1) :=
  ⟨by decide, by decide,
   blank_cookie_exits
     ⟨none, none, none, "T", "1", "", ⟨200, "OK", ⟨"2025", []⟩⟩, "07 December 2025", 0⟩
     (by decide) (by decide)⟩

/-- A string starting with "HTTP Error: " is never the authentication hint
line. -/
theorem http_error_ne_hint (s : String) :
    "HTTP Error: " ++ s ≠
      "Authentication required. Please provide a valid session cookie." := by
  intro h
  have hd : ("HTTP Error: " : String).data ++ s.data =
      ("Authentication required. Please provide a valid session cookie." : String).data := by
    rw [← String.data_append, h]
  have h1 : ("HTTP Error: " : String).data =
      ['H', 'T', 'T', 'P', ' ', 'E', 'r', 'r', 'o', 'r', ':', ' '] := by decide
  have h2 : ("Authentication required. Please provide a valid session cookie." :
      String).data.take 1 = ['A'] := by decide
  rw [h1] at hd
  have h3 : (['H', 'T', 'T', 'P', ' ', 'E', 'r', 'r', 'o', 'r', ':', ' '] ++
      s.data).take 1 = ['H'] := rfl
  rw [hd, h2] at h3
  exact absurd h3 (by decide)

/-- The printed error line is never the authentication hint line. -/
theorem errline_ne_hint (a b : String) :
    "HTTP Error: " ++ a ++ " - " ++ b ≠
      "Authentication required. Please provide a valid session cookie." := by
  intro h
  apply http_error_ne_hint (a ++ (" - " ++ b))
  rw [← h, String.append_assoc, String.append_assoc]

/-- C7: on a non-2xx response the fetch raises the status error carrying code
and reason, `main` prints `HTTP Error: <code> - <reason>`, prints the
authentication hint exactly when the code is 400 or 401, and the run ends
normally: exit status 0 and no leaderboard displayed. -/
theorem http_status_error_reported (env : Env)
    (hcookie : pyStrip (session_cookie_of env) ≠ "")
    (hstatus : env.response.status < 200 ∨ 300 ≤ env.response.status) :
    fetch_leaderboard env.response =
      Except.error ⟨env.response.status, env.response.reason⟩ ∧
    ("HTTP Error: " ++ toString env.response.status ++ " - " ++ env.response.reason)
      ∈ (main env).output ∧
    (("Authentication required. Please provide a valid session cookie." ∈
        (main env).output) ↔
      (env.response.status = 400 ∨ env.response.status = 401)) ∧
    (main env).exit_status = 0 ∧
    (main env).displayed = none := by
  have hf : fetch_leaderboard env.response =
      Except.error ⟨env.response.status, env.response.reason⟩ := by
    unfold fetch_leaderboard
    rw [if_neg]
    omega
  refine ⟨hf, ?_, ?_, ?_, ?_⟩
  · simp [main, hcookie, hf]
  · by_cases h4 : env.response.status = 401 ∨ env.response.status = 400
    · constructor
      · intro _
        tauto
      · intro _
        simp [main, hcookie, hf, h4]
    · constructor
      · intro hmem
        exfalso
        cases ht : fileBlank env.team_file <;>
          cases hl : fileBlank env.leaderboard_file <;>
            cases hk : fileBlank env.cookie_file <;>
              simp [main, hcookie, hf, h4, ht, hl, hk] at hmem <;>
                exact errline_ne_hint _ _ hmem.symm
      · intro hmem
        tauto
  · simp [main, hcookie, hf]
  · simp [main, hcookie, hf]

/-- Witness for C7 on a 401 response. -/
theorem http_status_error_reported_witness :
    pyStrip (session_cookie_of
      ⟨some "T", some "12345", some "cookie", "", "", "",
        ⟨401, "Unauthorized", ⟨"2025", []⟩⟩, "07 December 2025", 0⟩) ≠ "" ∧
    ((401 : Nat) < 200 ∨ (300 : Nat) ≤ 401) ∧
    (fetch_leaderboard (⟨401, "Unauthorized", ⟨"2025", []⟩⟩ : HttpResponse) =
      Except.error ⟨401, "Unauthorized"⟩ ∧
    ("HTTP Error: " ++ toString (401 : Nat) ++ " - " ++ "Unauthorized")
      ∈ (main ⟨some "T", some "12345", some "cookie", "", "", "",
        ⟨401, "Unauthorized", ⟨"2025", []⟩⟩, "07 December 2025", 0⟩).output ∧
    (("Authentication required. Please provide a valid session cookie." ∈
        (main ⟨some "T", some "12345", some "cookie", "", "", "",
          ⟨401, "Unauthorized", ⟨"2025", []⟩⟩, "07 December 2025", 0⟩).output) ↔
      ((401 : Nat) = 400 ∨ (401 : Nat) = 401)) ∧
    (main ⟨some "T", some "12345", some "cookie", "", "", "",
      ⟨401, "Unauthorized", ⟨"2025", []⟩⟩, "07 December 2025", 0⟩).exit_status = 0 ∧
    (main ⟨some "T", some "12345", some "cookie", "", "", "",
      ⟨401, "Unauthorized", ⟨"2025", []⟩⟩, "07 December 2025", 0⟩).displayed = none) :=
  ⟨by decide, by decide,
   http_status_error_reported
     ⟨some "T", some "12345", some "cookie", "", "", "",
       ⟨401, "Unauthorized", ⟨"2025", []⟩⟩, "07 December 2025", 0⟩
     (by decide) (by decide)⟩

/-- The descending-key comparison is transitive. -/
theorem keyGe_trans : ∀ a b c : Row, keyGe a b → keyGe b c → keyGe a c := by
  intro a b c hab hbc
  simp only [keyGe, decide_eq_true_eq] at *
  omega

/-- The descending-key comparison is total. -/
theorem keyGe_total : ∀ a b : Row, keyGe a b || keyGe b a := by
  intro a b
  simp only [keyGe, Bool.or_eq_true, decide_eq_true_eq]
  omega

/-- Rank eligibility only reads the last-star cell, not the rank cell. -/
theorem starredB_rank (r : Row) (v : Option Nat) :
    starredB { r with rank := v } = starredB r := rfl

/-- Rank assignment changes no field other than the rank cell. -/
theorem assignRanks_map_rowNR (no : Nat) (l : List Row) :
    (assignRanks no l).map rowNR = l.map rowNR := by
  induction l generalizing no with
  | nil => rfl
  | cons r rs ih =>
    simp only [assignRanks]
    by_cases hb : starredB r = true
    · simp only [if_pos hb, List.map_cons, ih]
      rfl
    · simp only [if_neg hb, List.map_cons, ih]

/-- Rank assignment leaves ineligible rows' (placeholder) rank untouched. -/
theorem assignRanks_rank_none :
    ∀ (no : Nat) (l : List Row), (∀ r ∈ l, r.rank = none) →
      ∀ r ∈ assignRanks no l, ¬ starredB r → r.rank = none := by
  intro no l
  induction l generalizing no with
  | nil =>
    intro _ r hr
    simp [assignRanks] at hr
  | cons r rs ih =>
    intro hall x hx hns
    simp only [assignRanks] at hx
    by_cases hb : starredB r = true
    · rw [if_pos hb] at hx
      rcases List.mem_cons.mp hx with h1 | h2
      · subst h1
        exact absurd (by rw [starredB_rank]; exact hb) hns
      · exact ih (no + 1) (fun y hy => hall y (List.mem_cons_of_mem _ hy)) x h2 hns
    · rw [if_neg hb] at hx
      rcases List.mem_cons.mp hx with h1 | h2
      · subst h1
        exact hall _ (List.mem_cons_self _ _)
      · exact ih no (fun y hy => hall y (List.mem_cons_of_mem _ hy)) x h2 hns

/-- Rank assignment gives the eligible rows, in order, the consecutive
numbers `no, no+1, ...`. -/
theorem assignRanks_ranks (no : Nat) (l : List Row) :
    ((assignRanks no l).filter starredB).map Row.rank =
      (List.range ((l.filter starredB).length)).map (fun i => some (no + i)) := by
  induction l generalizing no with
  | nil => rfl
  | cons r rs ih =>
    simp only [assignRanks]
    by_cases hb : starredB r = true
    · rw [if_pos hb, List.filter_cons_of_pos (by rw [starredB_rank]; exact hb),
        List.filter_cons_of_pos hb, List.map_cons, List.length_cons,
        List.range_succ_eq_map, List.map_cons, List.map_map, ih (no + 1)]
      refine congrArg₂ List.cons rfl ?_
      exact (List.map_congr_left (fun i _ => congrArg some (by omega))).symm
    · rw [if_neg hb, List.filter_cons_of_neg (by simpa using hb),
        List.filter_cons_of_neg (by simpa using hb), ih no]

/-- C1: in the rendered table, rows are ordered by strictly descending
`(local_score, stars)` keys up to ties, rank assignment does not reorder
them, and rows with equal keys keep exactly the relative order they had in
the input `members` mapping (stability of the sort). -/
theorem sort_descending_stable (off : Int) (members : List (String × MemberInfo)) :
    ((display_table off members).map rowNR = (sorted_table off members).map rowNR) ∧
    (sorted_table off members).Pairwise
      (fun a b => keyGt (rowKey a) (rowKey b) ∨ rowKey a = rowKey b) ∧
    (∀ k : Int × Int,
      (sorted_table off members).filter (fun r => rowKey r == k) =
        (table_data off members).filter (fun r => rowKey r == k)) := by
  refine ⟨assignRanks_map_rowNR 1 _, ?_, ?_⟩
  · have h := List.sorted_mergeSort keyGe_trans keyGe_total (table_data off members)
    exact h.imp (fun hab => by
      simp only [keyGe, decide_eq_true_eq] at hab
      simp only [keyGt, rowKey, Prod.mk.injEq]
      omega)
  · intro k
    have hperm : ((table_data off members).mergeSort keyGe).Perm (table_data off members) :=
      List.mergeSort_perm _ _
    have hpfilter := hperm.filter (fun r => rowKey r == k)
    have hpw : ((table_data off members).filter (fun r => rowKey r == k)).Pairwise
        (fun a b => keyGe a b = true) := by
      apply List.pairwise_of_forall_mem_list
      intro a ha b hb
      have hak := (List.mem_filter.mp ha).2
      have hbk := (List.mem_filter.mp hb).2
      simp only [beq_iff_eq] at hak hbk
      simp only [keyGe, decide_eq_true_eq]
      have hk : rowKey a = rowKey b := hak.trans hbk.symm
      simp only [rowKey, Prod.mk.injEq] at hk
      omega
    have hsub := List.sublist_mergeSort keyGe_trans keyGe_total hpw
      (List.filter_sublist (table_data off members))
    have hfix : ((table_data off members).filter (fun r => rowKey r == k)).filter
        (fun r => rowKey r == k) =
        (table_data off members).filter (fun r => rowKey r == k) := by
      apply List.filter_eq_self.mpr
      intro a ha
      exact (List.mem_filter.mp ha).2
    have hsub2 : List.Sublist
        ((table_data off members).filter (fun r => rowKey r == k))
        (((table_data off members).mergeSort keyGe).filter (fun r => rowKey r == k)) := by
      have h1 := hsub.filter (fun r => rowKey r == k)
      rwa [hfix] at h1
    unfold sorted_table
    exact (hsub2.eq_of_length hpfilter.length_eq.symm).symm

/-- C9: the rendered table has exactly one row per entry of the members
mapping — sorting and ranking neither drop, duplicate, nor invent rows. -/
theorem table_rows_preserved (off : Int) (members : List (String × MemberInfo)) :
    (display_table off members).length = members.length ∧
    ((display_table off members).map rowNR).Perm ((table_data off members).map rowNR) := by
  have h1 : (display_table off members).map rowNR = (sorted_table off members).map rowNR :=
    assignRanks_map_rowNR 1 _
  have h2 : ((sorted_table off members).map rowNR).Perm
      ((table_data off members).map rowNR) :=
    (List.mergeSort_perm _ _).map rowNR
  constructor
  · have hl := congrArg List.length h1
    simp only [List.length_map] at hl
    rw [hl]
    simp [sorted_table, table_data]
  · rw [h1]
    exact h2

/-- C2: a member's row carries the placeholder text exactly when its
`last_star_ts` is 0; in the final table such rows keep rank `none` (rendered
as `-`), and the eligible rows' rank cells read `1, 2, ..., k` from top to
bottom, so placeholder rows consume no rank slot. -/
theorem zero_star_rows_unranked (off : Int) (members : List (String × MemberInfo)) :
    (∀ m ∈ members,
      ((buildRow off m.2).last_star = "No stars earned yet" ↔ m.2.last_star_ts = 0)) ∧
    (∀ r ∈ display_table off members,
      r.last_star = "No stars earned yet" → r.rank = none) ∧
    (((display_table off members).filter starredB).map Row.rank =
      (List.range (((display_table off members).filter starredB).length)).map
        (fun i => some (1 + i))) := by
  refine ⟨?_, ?_, ?_⟩
  · intro m _
    unfold buildRow
    by_cases h : m.2.last_star_ts = 0
    · simp [h]
    · simp [h, fmt_ne_noStars]
  · intro r hr hns
    have hall : ∀ x ∈ sorted_table off members, x.rank = none := by
      intro x hx
      unfold sorted_table at hx
      have hx' : x ∈ table_data off members := List.mem_mergeSort.mp hx
      rcases List.mem_map.mp hx' with ⟨m, _, rfl⟩
      rfl
    exact assignRanks_rank_none 1 _ hall r hr (by simp [starredB, hns])
  · have h1 := assignRanks_ranks 1 (sorted_table off members)
    have hlen : ((display_table off members).filter starredB).length =
        ((sorted_table off members).filter starredB).length := by
      have h2 := congrArg List.length h1
      simpa [display_table] using h2
    rw [hlen]
    exact h1

/-- The numeric day comparison is transitive. -/
theorem dayLe_trans : ∀ a b c : String, dayLe a b → dayLe b c → dayLe a c := by
  intro a b c hab hbc
  simp only [dayLe, decide_eq_true_eq] at *
  omega

/-- The numeric day comparison is total. -/
theorem dayLe_total : ∀ a b : String, dayLe a b || dayLe b a := by
  intro a b
  simp only [dayLe, Bool.or_eq_true, decide_eq_true_eq]
  omega

/-- C3: for a non-empty completion mapping the rendered sub-table rows come
from the input's day keys (a permutation: none lost or invented), listed in
ascending numeric order whatever the input key order, and each day's star
string has exactly as many characters as that day's recorded level set. -/
theorem completion_days_sorted_and_counted (cdl : List (String × List String))
    (h : cdl ≠ []) :
    (sortedDays cdl).Perm (cdl.map Prod.fst) ∧
    (sortedDays cdl).Pairwise (fun a b => strToNat a ≤ strToNat b) ∧
    format_completion_days cdl =
      Sum.inr ((sortedDays cdl).map fun day =>
        ("Day " ++ day, starStr (numLevels cdl day))) ∧
    (∀ day : String, (starStr (numLevels cdl day)).length = numLevels cdl day) := by
  refine ⟨List.mergeSort_perm _ _, ?_, ?_, ?_⟩
  · have hs := List.sorted_mergeSort dayLe_trans dayLe_total (cdl.map Prod.fst)
    exact hs.imp (fun hab => by simpa [dayLe] using hab)
  · have h2 : cdl.isEmpty = false := by
      cases cdl
      · exact absurd rfl h
      · rfl
    simp [format_completion_days, h2, day_data]
  · intro day
    simp [starStr, String.length]

/-- Witness for C3 on a mapping whose keys are numerically but not
lexicographically ordered. -/
theorem completion_days_sorted_and_counted_witness :
    ([("10", ["1"]), ("2", ["1", "2"])] : List (String × List String)) ≠ [] ∧
    ((sortedDays [("10", ["1"]), ("2", ["1", "2"])]).Perm
        ([("10", ["1"]), ("2", ["1", "2"])].map Prod.fst) ∧
    (sortedDays [("10", ["1"]), ("2", ["1", "2"])]).Pairwise
        (fun a b => strToNat a ≤ strToNat b) ∧
    format_completion_days [("10", ["1"]), ("2", ["1", "2"])] =
      Sum.inr ((sortedDays [("10", ["1"]), ("2", ["1", "2"])]).map fun day =>
        ("Day " ++ day,
          starStr (numLevels [("10", ["1"]), ("2", ["1", "2"])] day))) ∧
    (∀ day : String,
      (starStr (numLevels [("10", ["1"]), ("2", ["1", "2"])] day)).length =
        numLevels [("10", ["1"]), ("2", ["1", "2"])] day)) :=
  ⟨by decide,
   completion_days_sorted_and_counted [("10", ["1"]), ("2", ["1", "2"])] (by decide)⟩

end Aoc
